import Mathlib

/-!
# Workflow graph execution engine — shallow embedding

A shallow embedding of the workflow execution engine of the SMB automation
platform (`backend/apps/workflows/models.py`, `services.py`, `views.py`),
together with theorems settling the specification claims about it.

Conventions of the embedding:
* Django model rows become Lean structures; primary keys are `Nat`.
* Status fields keep the Python string literals (`"queued"`, `"running"`, ...).
* Timestamps, layout positions, audit-log rows and the aggregate-statistics
  recomputation (`_update_workflow_stats`, which only rewrites the
  `Workflow` counter fields from the full execution table) are not modelled:
  no claim below reads them during traversal.
* `random.random() > 0.05` in `_simulate_node_execution` is modelled by an
  explicit stream of draws `flips : Nat → Bool`; each runner invocation
  consumes the next draw, mirroring one call of the random generator.
* Database mutation becomes explicit state passing on `EngineState`; in
  addition the engine appends an event to a trace at each status write, so
  that temporal claims (ordering of writes) can be stated.
* The recursion of `_execute_node` is not structurally decreasing (the graph
  may have cycles), so the Lean function takes a fuel argument; for every
  concrete acyclic graph considered below the fuel is chosen large enough
  that the fuel-exhaustion branch is never taken.
-/

namespace SMB

/-- Rows of `NodeType` (`models.py`): the fields the engine and the views read.
`type` is one of the `TYPE_CHOICES` tags (`"start"`, `"end"`, `"process"`,
`"decision"`, `"approval"`, ...). -/
structure NodeType where
  type : String
  requires_user_action : Bool
  allows_multiple_outputs : Bool
deriving DecidableEq, Repr

/-- Rows of `WorkflowNode` (`models.py`): `id` is the primary key, `node_id`
the caller-assigned identifier unique within the workflow. Layout fields and
`config` are omitted (never read by the engine). -/
structure WorkflowNode where
  id : Nat
  node_id : String
  name : String
  node_type : NodeType
  is_required : Bool
  timeout_seconds : Nat
  retry_count : Nat
deriving DecidableEq, Repr

/-- A field/operator/value triple, the shape `condition_config` takes for
`conditional` edges (spec §3; the engine in `services.py` never reads it). -/
structure ConditionConfig where
  field : String
  operator : String
  value : Int
deriving DecidableEq, Repr

/-- Rows of `WorkflowEdge` (`models.py`): a directed edge with a
`condition_type` from `CONDITION_TYPES` (`"always"`, `"success"`,
`"failure"`, `"conditional"`, `"approval_yes"`, `"approval_no"`). -/
structure WorkflowEdge where
  source_node : Nat
  target_node : Nat
  condition_type : String
  condition_config : Option ConditionConfig
deriving DecidableEq, Repr

/-- Rows of `Workflow` (`models.py`): status, the owned node/edge sets and the
aggregate counters read by `success_rate`. -/
structure Workflow where
  status : String
  nodes : List WorkflowNode
  edges : List WorkflowEdge
  total_executions : Nat
  successful_executions : Nat
  failed_executions : Nat
deriving DecidableEq, Repr

/-- The property `Workflow.success_rate` (`models.py` lines 161–165):

    if self.total_executions == 0: return 0
    return (self.successful_executions / self.total_executions) * 100

Python's true division on these integer counters is exact rational
division, embedded in `ℚ`. -/
def Workflow.success_rate (w : Workflow) : ℚ :=
  if w.total_executions = 0 then 0
  else ((w.successful_executions : ℚ) / (w.total_executions : ℚ)) * 100

/-- Rows of `WorkflowNodeExecution` (`models.py`): per-(execution, node) state.
`workflow_node` is the node's primary key. -/
structure WorkflowNodeExecution where
  workflow_node : Nat
  status : String
  error_message : String
  retry_count : Nat
deriving DecidableEq, Repr

/-- Rows of `WorkflowExecution` (`models.py`): one run. `context_data` is the
mutable scratch space (a finite string-to-integer map here; the engine in
`services.py` never reads or writes it). The owned
`WorkflowNodeExecution` rows are carried inline. -/
structure WorkflowExecution where
  status : String
  current_node : Option Nat
  context_data : List (String × Int)
  node_executions : List WorkflowNodeExecution
  workflow : Workflow
  error_message : String
deriving DecidableEq, Repr

/-- The service `WorkflowExecutionService.create_execution` (`services.py` lines 20–51):
inside one `transaction.atomic()` block it creates the execution row with
status `queued` and one `pending` node-execution row per node of the
workflow. The embedding returns the fully seeded value in one step, which is
exactly the all-or-nothing visibility the transaction provides: no
intermediate value exists. The audit-log write is not modelled. -/
def create_execution (workflow : Workflow) : WorkflowExecution :=
  { status := "queued"
    current_node := none
    context_data := []
    node_executions := workflow.nodes.map fun n =>
      { workflow_node := n.id, status := "pending", error_message := "", retry_count := 0 }
    workflow := workflow
    error_message := "" }

/-- The service `WorkflowExecutionService.cancel_execution` (`services.py` lines
240–261): guarded on status `queued`/`running`/`paused`; sets the execution
`cancelled` and bulk-updates the node executions whose status is exactly
`"running"` (and only those) to `cancelled`. The audit-log write is not
modelled. -/
def cancel_execution (e : WorkflowExecution) : WorkflowExecution :=
  if e.status = "queued" ∨ e.status = "running" ∨ e.status = "paused" then
    { e with
      status := "cancelled"
      node_executions := e.node_executions.map fun ne =>
        if ne.status = "running" then { ne with status := "cancelled" } else ne }
  else e

/-- The view `WorkflowViewSet.activate` (`views.py` lines 216–237): reject with an
error message, leaving the workflow untouched, when no node of NodeType kind
`start` (checked first) or no node of kind `end` exists; otherwise set the
status to `active`. The pair returns the (possibly updated) workflow and the
error message of the 400 response, if any. -/
def activate (w : Workflow) : Workflow × Option String :=
  if ¬ w.nodes.any (fun n => n.node_type.type = "start") then
    (w, some "Workflow must have at least one start node")
  else if ¬ w.nodes.any (fun n => n.node_type.type = "end") then
    (w, some "Workflow must have at least one end node")
  else ({ w with status := "active" }, none)

/-- One observable status write of the engine, recorded in order so that
temporal claims (what is written before what) can be stated. `nodeRunning n`
is the write setting node `n`'s execution to `running`, and so on;
`execTerminal s` is `_complete_execution` writing the final status `s` on
the execution row. -/
inductive Event where
  | nodeRunning (node : Nat)
  | nodeCompleted (node : Nat)
  | nodeFailed (node : Nat)
  | execTerminal (status : String)
deriving DecidableEq, Repr

/-- The engine's whole mutable world while a run is driven: the execution
row (with its node-execution rows inline), the stream of random draws of the
simulated step runner with the count of draws consumed so far, and the
event trace. -/
structure EngineState where
  execution : WorkflowExecution
  flips : Nat → Bool
  draws : Nat
  events : List Event

/-- Fresh engine state for a run: no draws consumed, empty trace. -/
def initState (e : WorkflowExecution) (flips : Nat → Bool) : EngineState :=
  { execution := e, flips := flips, draws := 0, events := [] }

/-- The status of the `(execution, node)` node-execution row. Seeded
executions (`create_execution`) have exactly one row per node, so the
lookup mirrors Django's `.get(workflow_node=...)`; on a missing row Django
raises `DoesNotExist`, an unreachable case here, embedded as the empty
string (on which every status comparison the engine makes is false). -/
def node_execution_status (e : WorkflowExecution) (node : Nat) : String :=
  match e.node_executions.find? (fun ne => ne.workflow_node = node) with
  | some ne => ne.status
  | none => ""

/-- Rewrite the status of the `(execution, node)` row. The row is unique
per `(execution, node)` (`unique_together` in `models.py`), so updating
every row with this node key is the single-row update of the source. -/
def set_node_status (e : WorkflowExecution) (node : Nat) (st : String) :
    WorkflowExecution :=
  { e with node_executions := e.node_executions.map fun ne =>
      if ne.workflow_node = node then { ne with status := st } else ne }

/-- As `set_node_status`, also writing the row's `error_message`
(the failure branch of `_execute_node`). -/
def set_node_failed (e : WorkflowExecution) (node : Nat) (msg : String) :
    WorkflowExecution :=
  { e with node_executions := e.node_executions.map fun ne =>
      if ne.workflow_node = node then
        { ne with status := "failed", error_message := msg }
      else ne }

/-- The `get_or_create` at the top of `_execute_node` (`services.py` lines
91–100): the existing row (always present for seeded executions) is set to
`running`; were it absent, a fresh row would be created already `running`. -/
def get_or_create_running (e : WorkflowExecution) (node : Nat) :
    WorkflowExecution :=
  if e.node_executions.any (fun ne => ne.workflow_node = node) then
    set_node_status e node "running"
  else
    { e with node_executions := e.node_executions ++
        [{ workflow_node := node, status := "running", error_message := "",
           retry_count := 0 }] }

/-- Mirrors `current_node.outgoing_edges.all()`: the edges of the workflow whose
source is the given node, in table order. -/
def outgoing_edges (w : Workflow) (node : Nat) : List WorkflowEdge :=
  w.edges.filter fun ed => ed.source_node = node

/-- The per-edge condition check of `_get_next_nodes` (`services.py` lines
171–187): `should_execute` starts `True`; `"always"` keeps it `True`;
`"success"` tests the current node's execution status against
`"completed"`; `"failure"` tests it against `"failed"`; every other
condition type (including `"conditional"` and the approval kinds) falls
through the `if`/`elif` chain with `should_execute` still `True`. -/
def should_execute_edge (e : WorkflowExecution) (current_node : WorkflowNode)
    (edge : WorkflowEdge) : Bool :=
  if edge.condition_type = "always" then true
  else if edge.condition_type = "success" then
    node_execution_status e current_node.id = "completed"
  else if edge.condition_type = "failure" then
    node_execution_status e current_node.id = "failed"
  else true

/-- The service `WorkflowExecutionService._get_next_nodes` (`services.py` lines
164–190): the targets of the outgoing edges that pass
`should_execute_edge`, in edge order. The source stores the target node
object on the edge (a foreign key, always resolvable); here the target is
resolved by key in the workflow's node list. -/
def get_next_nodes (e : WorkflowExecution) (current_node : WorkflowNode) :
    List WorkflowNode :=
  ((outgoing_edges e.workflow current_node.id).filter
      (should_execute_edge e current_node)).filterMap fun ed =>
    e.workflow.nodes.find? fun n => n.id = ed.target_node

/-- The service `WorkflowExecutionService._complete_execution` (`services.py` lines
192–213): write the final status, clear `current_node`, record the
terminal event. The statistics recomputation and the audit-log write that
follow touch only the `Workflow` aggregate counters and the audit table. -/
def complete_execution (st : EngineState) (final_status : String) :
    EngineState :=
  { st with
    execution := { st.execution with
      status := final_status, current_node := none }
    events := st.events ++ [Event.execTerminal final_status] }

/-- The service `WorkflowExecutionService._execute_node` (`services.py` lines 86–142),
with a fuel argument bounding the recursion depth (the source recursion is
unbounded on cyclic graphs). Mirrors the source: mark the row `running`,
draw the simulated runner's outcome (one random draw per invocation,
`services.py` line 162; `_simulate_node_execution` reads neither
`requires_user_action` nor `retry_count` and performs no retry), then
either mark the row `completed` and recurse into `_get_next_nodes` —
completing the execution when that list is empty — or mark the row
`failed` and fail the whole execution at once. -/
def execute_node : Nat → EngineState → WorkflowNode → EngineState
  | 0, st, _ => st
  | fuel + 1, st, node =>
    let st := { st with
      execution := get_or_create_running st.execution node.id
      events := st.events ++ [Event.nodeRunning node.id] }
    let success := st.flips st.draws
    let st := { st with draws := st.draws + 1 }
    if success then
      let st := { st with
        execution := set_node_status st.execution node.id "completed"
        events := st.events ++ [Event.nodeCompleted node.id] }
      let next_nodes := get_next_nodes st.execution node
      if next_nodes.isEmpty then
        complete_execution st "completed"
      else
        next_nodes.foldl (fun acc next_node => execute_node fuel acc next_node) st
    else
      let st := { st with
        execution := set_node_failed st.execution node.id
          ("Node execution failed: " ++ node.name)
        events := st.events ++ [Event.nodeFailed node.id] }
      complete_execution st "failed"

/-- The service `WorkflowExecutionService.start_execution` (`services.py` lines 53–84):
unconditionally write status `running` (the prior status is never read),
look for a node of NodeType kind `start`; if none, the raised `ValueError`
is caught and the execution is marked `failed` with the error recorded;
otherwise set `current_node` to the first start node and run
`_execute_node` from it. -/
def start_execution (fuel : Nat) (st : EngineState) : EngineState :=
  let st := { st with execution := { st.execution with status := "running" } }
  match st.execution.workflow.nodes.find? (fun n => n.node_type.type = "start") with
  | none =>
    { st with execution := { st.execution with
        status := "failed"
        error_message := "Workflow must have at least one start node" } }
  | some start_node =>
    let st := { st with execution := { st.execution with
        current_node := some start_node.id } }
    execute_node fuel st start_node

/-! ## Concrete fixtures

Node types as seeded by the repository (`populate_workflows.py` marks the
`approval` kind `requires_user_action=True`), and the concrete workflow
shapes named by the spec's testable properties (§8). Node defaults follow
`models.py`: `timeout_seconds=300`, `retry_count=3`. -/

/-- The `start` node kind. -/
def startType : NodeType :=
  { type := "start", requires_user_action := false, allows_multiple_outputs := true }

/-- The `process` node kind. -/
def processType : NodeType :=
  { type := "process", requires_user_action := false, allows_multiple_outputs := false }

/-- The `end` node kind. -/
def endType : NodeType :=
  { type := "end", requires_user_action := false, allows_multiple_outputs := false }

/-- The `approval` node kind: requires user action. -/
def approvalType : NodeType :=
  { type := "approval", requires_user_action := true, allows_multiple_outputs := false }

/-- A workflow node with the model defaults. -/
def mkNode (id : Nat) (node_id name : String) (t : NodeType) : WorkflowNode :=
  { id := id, node_id := node_id, name := name, node_type := t,
    is_required := true, timeout_seconds := 300, retry_count := 3 }

/-- An edge without `condition_config`. -/
def mkEdge (source target : Nat) (cond : String) : WorkflowEdge :=
  { source_node := source, target_node := target, condition_type := cond,
    condition_config := none }

/-- Linear workflow start(0) → process(1) → end(2), edges `always` then
`success` (spec §8, *Linear workflow* / *Failure propagation*). -/
def linearWorkflow : Workflow :=
  { status := "active"
    nodes := [mkNode 0 "start_1" "Start" startType,
              mkNode 1 "process_1" "Process" processType,
              mkNode 2 "end_1" "End" endType]
    edges := [mkEdge 0 1 "always", mkEdge 1 2 "success"]
    total_executions := 0, successful_executions := 0, failed_executions := 0 }

/-- Fan-out workflow start(0) with two `always` edges to process-A(1) and
process-B(2), both feeding a shared end(3) via `success` edges
(spec §8, *Fan-out*). -/
def fanoutWorkflow : Workflow :=
  { status := "active"
    nodes := [mkNode 0 "start_1" "Start" startType,
              mkNode 1 "process_a" "Process A" processType,
              mkNode 2 "process_b" "Process B" processType,
              mkNode 3 "end_1" "End" endType]
    edges := [mkEdge 0 1 "always", mkEdge 0 2 "always",
              mkEdge 1 3 "success", mkEdge 2 3 "success"]
    total_executions := 0, successful_executions := 0, failed_executions := 0 }

/-- Approval workflow start(0) → approval(1) → end(2), the approval node's
NodeType requiring manual action (spec §8, *Approval gate*). -/
def approvalWorkflow : Workflow :=
  { status := "active"
    nodes := [mkNode 0 "start_1" "Start" startType,
              mkNode 1 "approval_1" "Approval" approvalType,
              mkNode 2 "end_1" "End" endType]
    edges := [mkEdge 0 1 "always", mkEdge 1 2 "approval_yes"]
    total_executions := 0, successful_executions := 0, failed_executions := 0 }

/-- A draw stream on which the simulated runner always succeeds. -/
def allTrue : Nat → Bool := fun _ => true

/-- A draw stream failing exactly the second runner invocation (draw index
1) and succeeding on every other one — in the linear workflow: the start
node succeeds, the process node's first attempt fails, and any retry of it
would succeed. -/
def failSecond : Nat → Bool := fun n => decide (n ≠ 1)

/-- The full fan-out run: seeded execution, all runner draws succeed. -/
def fanoutRun : EngineState :=
  start_execution 8 (initState (create_execution fanoutWorkflow) allTrue)

/-- The linear run in which the process node hard-fails (first attempt
fails; a retry would have succeeded). -/
def linearFailRun : EngineState :=
  start_execution 8 (initState (create_execution linearWorkflow) failSecond)

/-- The approval run: all runner draws succeed. -/
def approvalRun : EngineState :=
  start_execution 8 (initState (create_execution approvalWorkflow) allTrue)

/-- Modelled from the spec (for comparison with the code's edge selection,
which itself never evaluates `condition_config`): "`conditional` matches iff
evaluating `conditionConfig` against `execution.contextData`/node output
satisfies the configured comparison" with `conditionConfig` "a
field/operator/value triple for `conditional`" (spec §3, §4.2 step 3) — the
context's value for the configured field is compared with the configured
value under the configured operator (the `equals` operator is equality). -/
def spec_conditional_matches (context : List (String × Int))
    (cfg : ConditionConfig) : Bool :=
  match context.find? (fun p => p.1 = cfg.field) with
  | some p => if cfg.operator = "equals" then decide (p.2 = cfg.value) else false
  | none => false

/-- A `conditional` condition configuration: field `amount` must equal 5. -/
def amountIs5 : ConditionConfig :=
  { field := "amount", operator := "equals", value := 5 }

/-- Two-node workflow process(0) → end(1) joined by a single `conditional`
edge carrying `amountIs5`. -/
def condWorkflow : Workflow :=
  { status := "active"
    nodes := [mkNode 0 "process_1" "Process" processType,
              mkNode 1 "end_1" "End" endType]
    edges := [{ source_node := 0, target_node := 1,
                condition_type := "conditional",
                condition_config := some amountIs5 }]
    total_executions := 0, successful_executions := 0, failed_executions := 0 }

/-- An execution of `condWorkflow` whose context has `amount = 3` (so the
configured comparison `amount = 5` is not satisfied) and whose node 0 has
just completed — the state in which the engine selects node 0's outgoing
edges. -/
def condExecution : WorkflowExecution :=
  { set_node_status (create_execution condWorkflow) 0 "completed" with
    context_data := [("amount", 3)] }

/-- An already cancelled (hence non-`queued`) execution of the linear
workflow. -/
def cancelledLinearExecution : WorkflowExecution :=
  { create_execution linearWorkflow with status := "cancelled" }

/-- A `paused` execution of the approval workflow whose approval node (1) is
currently `waiting_approval`. -/
def pausedApprovalExecution : WorkflowExecution :=
  { set_node_status (create_execution approvalWorkflow) 1 "waiting_approval" with
    status := "paused" }

/-- A workflow whose aggregate counters record 4 runs, 3 successful. -/
def statsWorkflow : Workflow :=
  { linearWorkflow with
    total_executions := 4, successful_executions := 3, failed_executions := 1 }

/-- Characterization of the per-edge check of `_get_next_nodes`: an edge
passes iff a `success` condition type forces the current node's status to be
`completed` and a `failure` condition type forces it to be `failed` — every
other condition type (`always`, `conditional`, `approval_yes`,
`approval_no`, ...) passes unconditionally. -/
lemma should_execute_edge_eq_true_iff (e : WorkflowExecution)
    (current : WorkflowNode) (ed : WorkflowEdge) :
    should_execute_edge e current ed = true ↔
      (ed.condition_type = "success" →
        node_execution_status e current.id = "completed") ∧
      (ed.condition_type = "failure" →
        node_execution_status e current.id = "failed") := by
  unfold should_execute_edge
  by_cases h1 : ed.condition_type = "always"
  · simp [h1]
  · by_cases h2 : ed.condition_type = "success"
    · simp [h1, h2]
    · by_cases h3 : ed.condition_type = "failure"
      · simp [h1, h2, h3]
      · simp [h1, h2, h3]

/-! ## Claims -/

/-- C1, counterexample. In the fan-out run (start with two `always` edges to
process-A (node 1) and process-B (node 2), both feeding the shared end
(node 3)), the engine's terminal write `execTerminal "completed"` occurs in
the trace strictly before process-B is even started (`nodeRunning 2`) and
before it completes (`nodeCompleted 2`) — so the execution is marked
terminal before every branch has reached a terminus, while B's
NodeExecution is still `pending`; moreover the shared end node is visited
twice, once per branch, refuting "every branch is visited exactly once per
execution". -/
theorem C1_counterexample :
    fanoutRun.events.indexOf (Event.execTerminal "completed") <
      fanoutRun.events.indexOf (Event.nodeRunning 2) ∧
    fanoutRun.events.indexOf (Event.execTerminal "completed") <
      fanoutRun.events.indexOf (Event.nodeCompleted 2) ∧
    fanoutRun.events.count (Event.nodeRunning 3) = 2 := by
  decide

/-- C1, amended. Each branch terminus marks the execution terminal as it is
reached: the first branch to reach a node with no matching outgoing edge
already marks the execution terminal, before the remaining branches are
visited, and a node shared by two branches is visited once per branch. In
the fan-out example the final state still has the execution `completed` and
both process NodeExecutions `completed`, but the first terminal write
precedes process-B's completion and the shared end node runs twice. -/
theorem C1_amended :
    fanoutRun.execution.status = "completed" ∧
    node_execution_status fanoutRun.execution 1 = "completed" ∧
    node_execution_status fanoutRun.execution 2 = "completed" ∧
    fanoutRun.events =
      [Event.nodeRunning 0, Event.nodeCompleted 0,
       Event.nodeRunning 1, Event.nodeCompleted 1,
       Event.nodeRunning 3, Event.nodeCompleted 3,
       Event.execTerminal "completed",
       Event.nodeRunning 2, Event.nodeCompleted 2,
       Event.nodeRunning 3, Event.nodeCompleted 3,
       Event.execTerminal "completed"] := by
  decide

/-- C2, counterexample. A `conditional` edge whose `condition_config`
requires `amount = 5` matches even though the execution context has
`amount = 3` (the spec-modelled evaluation of the comparison is false): the
engine never evaluates `condition_config`, so the edge's target is executed
next anyway — refuting "a `conditional` edge matches if and only if
evaluating its conditionConfig against the execution context satisfies the
configured comparison". -/
theorem C2_counterexample :
    (get_next_nodes condExecution (mkNode 0 "process_1" "Process" processType)).map
        (fun n => n.id) = [1] ∧
    spec_conditional_matches condExecution.context_data amountIs5 = false := by
  decide

/-- C2, amended. Edge selection after a node finishes satisfies: a node `n`
is executed next iff some outgoing edge of the current node targets it and
passes the condition check, where an edge with condition type `success`
passes iff the current node's execution status is `completed`, one with
`failure` passes iff that status is `failed`, and an edge of any other
condition type — `always`, but also `conditional` and the approval kinds —
passes unconditionally: `condition_config` is never evaluated. -/
theorem C2_amended (e : WorkflowExecution) (current : WorkflowNode)
    (n : WorkflowNode) :
    n ∈ get_next_nodes e current ↔
      ∃ ed ∈ e.workflow.edges,
        ed.source_node = current.id ∧
        (e.workflow.nodes.find? fun m => m.id = ed.target_node) = some n ∧
        (ed.condition_type = "success" →
          node_execution_status e current.id = "completed") ∧
        (ed.condition_type = "failure" →
          node_execution_status e current.id = "failed") := by
  simp only [get_next_nodes, outgoing_edges, List.mem_filterMap,
    List.mem_filter, decide_eq_true_eq, should_execute_edge_eq_true_iff]
  constructor
  · rintro ⟨ed, ⟨⟨hmem, hsrc⟩, hcond⟩, hfind⟩
    exact ⟨ed, hmem, hsrc, hfind, hcond.1, hcond.2⟩
  · rintro ⟨ed, hmem, hsrc, hfind, hsucc, hfail⟩
    exact ⟨ed, ⟨⟨hmem, hsrc⟩, hsucc, hfail⟩, hfind⟩

/-- C2, witness for the amended theorem: in `condExecution` the end node
(node 1) is among the next nodes of the completed process node, via the
`conditional` edge, whose config imposes no condition on selection. -/
theorem C2_amended_witness :
    mkNode 1 "end_1" "End" endType ∈
      get_next_nodes condExecution (mkNode 0 "process_1" "Process" processType) :=
  (C2_amended condExecution (mkNode 0 "process_1" "Process" processType)
      (mkNode 1 "end_1" "End" endType)).mpr
    ⟨{ source_node := 0, target_node := 1, condition_type := "conditional",
       condition_config := some amountIs5 },
     by decide, by decide, by decide,
     fun h => absurd h (by decide), fun h => absurd h (by decide)⟩

/-- C3, code bug, evaluation at the failing input. In the approval workflow
(start → approval → end, the approval node's NodeType having
`requires_user_action = true`) with a runner reporting success, the engine
runs the approval node to completion like any other node: its NodeExecution
ends `completed` (never `waiting_approval`), the execution ends `completed`
(never `paused`), and the trace shows the full uninterrupted traversal —
the engine never consults `requires_user_action` and has no code path
writing `waiting_approval` or `paused`. -/
theorem C3_no_pause_eval :
    (approvalWorkflow.nodes.get? 1).map
        (fun n => n.node_type.requires_user_action) = some true ∧
    approvalRun.execution.status = "completed" ∧
    node_execution_status approvalRun.execution 1 = "completed" ∧
    approvalRun.events =
      [Event.nodeRunning 0, Event.nodeCompleted 0,
       Event.nodeRunning 1, Event.nodeCompleted 1,
       Event.nodeRunning 2, Event.nodeCompleted 2,
       Event.execTerminal "completed"] := by
  decide

/-- C4. In the linear workflow start(0) → process(1) → end(2), when the
start node succeeds and the process node hard-fails — whatever the runner
would have answered on any later invocation — the execution ends `failed`,
the process NodeExecution ends `failed`, and the end NodeExecution remains
`pending`: downstream nodes are never executed after a hard failure on
their branch. -/
theorem C4_failure_propagation (rest : Nat → Bool) :
    (start_execution 8 (initState (create_execution linearWorkflow)
        (fun n => if n = 0 then true else if n = 1 then false else rest n))
      ).execution.status = "failed" ∧
    node_execution_status
      (start_execution 8 (initState (create_execution linearWorkflow)
        (fun n => if n = 0 then true else if n = 1 then false else rest n))
      ).execution 1 = "failed" ∧
    node_execution_status
      (start_execution 8 (initState (create_execution linearWorkflow)
        (fun n => if n = 0 then true else if n = 1 then false else rest n))
      ).execution 2 = "pending" :=
  ⟨rfl, rfl, rfl⟩

/-- C5, code bug, evaluation at the failing input. In the linear run whose
process node (configured `retry_count = 3`) fails on its first attempt
while every other draw of the stream — in particular any retry — would have
succeeded, the engine performs no retry at all: exactly two runner
invocations happen in the whole run (one for the start node, one single
attempt for the process node), the process NodeExecution ends `failed` with
its `retry_count` still 0, and the execution ends `failed`. -/
theorem C5_no_retry_eval :
    linearFailRun.draws = 2 ∧
    linearFailRun.execution.status = "failed" ∧
    node_execution_status linearFailRun.execution 1 = "failed" ∧
    (linearFailRun.execution.node_executions.find?
        (fun ne => ne.workflow_node = 1)).map (fun ne => ne.retry_count) =
      some 0 ∧
    (linearWorkflow.nodes.get? 1).map (fun n => n.retry_count) = some 3 ∧
    failSecond 2 = true := by
  decide

/-- C6. Creating a WorkflowExecution yields, in one atomic step (the whole
seeded value is produced at once; no partially-seeded value exists), an
execution whose status is `queued` and whose node executions are exactly
one per node of the workflow, in order and keyed by the node's primary key,
each in status `pending`. -/
theorem C6_creation_invariant (w : Workflow) :
    (create_execution w).status = "queued" ∧
    (create_execution w).node_executions.map (fun ne => ne.workflow_node) =
      w.nodes.map (fun n => n.id) ∧
    ((create_execution w).node_executions.all
      (fun ne => ne.status == "pending")) = true := by
  refine ⟨rfl, ?_, ?_⟩
  · simp [create_execution]
  · simp [create_execution, List.all_eq_true]

/-- C7, counterexample. Calling `start_execution` on an already cancelled
(non-`queued`) execution is not a no-op: the execution's status changes
from `cancelled` to `completed` and its node executions are re-run from
`pending` to `completed`. -/
theorem C7_counterexample :
    cancelledLinearExecution.status = "cancelled" ∧
    node_execution_status cancelledLinearExecution 1 = "pending" ∧
    (start_execution 8 (initState cancelledLinearExecution allTrue)
      ).execution.status = "completed" ∧
    node_execution_status
      (start_execution 8 (initState cancelledLinearExecution allTrue)
        ).execution 1 = "completed" := by
  decide

/-- C7, amended. `start_execution` never reads the execution's prior
status: it unconditionally overwrites it with `running` and runs traversal
from the start node, so its entire behavior is identical on two executions
differing only in status — invoked on a non-`queued` execution it re-runs
the workflow exactly as on a `queued` one, rather than being an idempotent
no-op. -/
theorem C7_amended (fuel : Nat) (flips : Nat → Bool) (e : WorkflowExecution)
    (s₁ s₂ : String) :
    start_execution fuel (initState { e with status := s₁ } flips) =
      start_execution fuel (initState { e with status := s₂ } flips) :=
  rfl

/-- C8, counterexample. Cancelling a `paused` execution whose approval node
is `waiting_approval` transitions the execution to `cancelled` but leaves
that node in `waiting_approval` — refuting "marks every node currently in
status running or waitingApproval as cancelled". -/
theorem C8_counterexample :
    pausedApprovalExecution.status = "paused" ∧
    (cancel_execution pausedApprovalExecution).status = "cancelled" ∧
    node_execution_status (cancel_execution pausedApprovalExecution) 1 =
      "waiting_approval" := by
  decide

/-- C8, amended. `cancel_execution`, invoked while the execution's status
is `queued`, `running` or `paused`, transitions the execution to
`cancelled` and rewrites exactly the node executions currently in status
`running` to `cancelled`, leaving every other node execution — including
those in `waiting_approval` — unchanged (positionally, row by row); so
cancellation never marks anything `completed`, and it never invokes the
step runner (it takes no draw stream at all). Invoked in any other status
it changes nothing. -/
theorem C8_amended (e : WorkflowExecution) :
    ((e.status = "queued" ∨ e.status = "running" ∨ e.status = "paused") →
      (cancel_execution e).status = "cancelled" ∧
      ∀ i : Nat, (cancel_execution e).node_executions[i]? =
        (e.node_executions[i]?).map fun ne =>
          if ne.status = "running" then { ne with status := "cancelled" }
          else ne) ∧
    (¬ (e.status = "queued" ∨ e.status = "running" ∨ e.status = "paused") →
      cancel_execution e = e) := by
  constructor
  · intro h
    refine ⟨by simp [cancel_execution, h], fun i => ?_⟩
    simp [cancel_execution, h, List.getElem?_map]
  · intro h
    simp [cancel_execution, h]

/-- C8, witness: cancelling the freshly created (hence `queued`) linear
execution yields status `cancelled`. -/
theorem C8_amended_witness :
    (cancel_execution (create_execution linearWorkflow)).status = "cancelled" :=
  ((C8_amended (create_execution linearWorkflow)).1 (Or.inl rfl)).1

/-- C9. Activation fails, leaving the workflow (in particular its status)
unchanged and returning an error, whenever the workflow has no node of
NodeType kind `start` or none of kind `end`; when both kinds are present it
succeeds, sets the status to `active` and returns no error. -/
theorem C9_activation_guard (w : Workflow) :
    (((¬ ∃ n ∈ w.nodes, n.node_type.type = "start") ∨
      (¬ ∃ n ∈ w.nodes, n.node_type.type = "end")) →
      (activate w).1 = w ∧ (activate w).2.isSome = true) ∧
    ((∃ n ∈ w.nodes, n.node_type.type = "start") →
      (∃ n ∈ w.nodes, n.node_type.type = "end") →
      (activate w).1.status = "active" ∧ (activate w).2 = none) := by
  have hs : (w.nodes.any fun n => n.node_type.type = "start") = true ↔
      ∃ n ∈ w.nodes, n.node_type.type = "start" := by
    simp [List.any_eq_true]
  have he : (w.nodes.any fun n => n.node_type.type = "end") = true ↔
      ∃ n ∈ w.nodes, n.node_type.type = "end" := by
    simp [List.any_eq_true]
  constructor
  · intro h
    unfold activate
    by_cases h1 : (w.nodes.any fun n => n.node_type.type = "start") = true
    · have h2 : ¬ (w.nodes.any fun n => n.node_type.type = "end") = true := by
        intro h2
        rcases h with h | h
        · exact h (hs.mp h1)
        · exact h (he.mp h2)
      simp [h1, h2]
    · simp [h1]
  · intro h1 h2
    unfold activate
    simp [hs.mpr h1, he.mpr h2]

/-- C9, witness: the linear workflow has a start node and an end node, and
activating it sets its status to `active` with no error. -/
theorem C9_activation_guard_witness :
    (activate linearWorkflow).1.status = "active" ∧
    (activate linearWorkflow).2 = none :=
  (C9_activation_guard linearWorkflow).2
    ⟨mkNode 0 "start_1" "Start" startType, by decide, by decide⟩
    ⟨mkNode 2 "end_1" "End" endType, by decide, by decide⟩

/-- C10. The success-rate computation is total: it returns 0 when
`total_executions` is 0, and otherwise the value
`(successful_executions / total_executions) * 100` — stated
multiplicatively, which is equivalent exactly because the denominator is
nonzero in that branch, so the division is never performed with a zero
denominator. -/
theorem C10_success_rate_total (w : Workflow) :
    (w.total_executions = 0 → w.success_rate = 0) ∧
    (w.total_executions ≠ 0 →
      w.success_rate * (w.total_executions : ℚ) =
        (w.successful_executions : ℚ) * 100) := by
  constructor
  · intro h
    simp [Workflow.success_rate, h]
  · intro h
    have h0 : (w.total_executions : ℚ) ≠ 0 := by exact_mod_cast h
    simp only [Workflow.success_rate, h, if_false]
    field_simp

/-- C10, witness: a workflow with 4 runs, 3 successful, has success rate
satisfying `rate * 4 = 300` (i.e. rate = 75). -/
theorem C10_success_rate_witness :
    statsWorkflow.success_rate * (statsWorkflow.total_executions : ℚ) =
      (statsWorkflow.successful_executions : ℚ) * 100 :=
  (C10_success_rate_total statsWorkflow).2 (by decide)

end SMB
